import Mathlib

/-!
Verification of the tool-calling orchestration loop of `agent/core/agent.py`
(`ToolAgent.run_task`) and its supporting pieces (`agent/tools/base.py`).

The embedding is shallow: the Python loop is translated into a fuel-indexed
recursive Lean function over an explicit conversation state, and the dynamic
JSON handling (`json.loads`, dict lookups, truthiness, `str()` formatting)
is translated into executable Lean functions over an inductive `Json` type.

Modelling notes, stated once here:
* JSON numbers are modelled as integers; fractional/exponent literals and
  `\uXXXX` string escapes are outside the fragment exercised by the
  properties below and make the modelled parser fail where Python would
  succeed.  No property below depends on such inputs.
* `str.splitlines` is modelled as splitting on `'\n'` only (the code paths
  below first `strip()` their input, so `\r\n` endings do not reach the
  split in the scenarios considered).
* A Python exception raised by a tool handler is modelled as the `Except.error`
  branch of the handler's result; the Chat Backend is modelled as a total
  function from the conversation to the returned text.
-/

/-- JSON values as produced by `json.loads` (numbers restricted to integers). -/
inductive Json where
  | null
  | bool (b : Bool)
  | num (n : Int)
  | str (s : String)
  | arr (elems : List Json)
  | obj (fields : List (String × Json))

/-- The backquote character; fence markers in the source are three of these. -/
def tick : Char := Char.ofNat 96

/-- JSON insignificant whitespace, as accepted by Python's `json` module. -/
def isJsonWs (c : Char) : Bool :=
  c == ' ' || c == '\t' || c == '\n' || c == '\r'

/-- Skip insignificant whitespace. -/
def skipWs (cs : List Char) : List Char :=
  cs.dropWhile isJsonWs

/-- Body of a JSON string after the opening quote: returns the decoded
content and the remainder after the closing quote. -/
def parseStringBody : List Char → Option (List Char × List Char)
  | [] => none
  | '"' :: rest => some ([], rest)
  | '\\' :: esc =>
    match esc with
    | [] => none
    | e :: rest =>
      let mapped : Option Char :=
        if e = '"' then some '"'
        else if e = '\\' then some '\\'
        else if e = '/' then some '/'
        else if e = 'n' then some '\n'
        else if e = 't' then some '\t'
        else if e = 'r' then some '\r'
        else if e = 'b' then some (Char.ofNat 8)
        else if e = 'f' then some (Char.ofNat 12)
        else none
      match mapped with
      | some c => (parseStringBody rest).map fun p => (c :: p.1, p.2)
      | none => none
  | c :: rest => (parseStringBody rest).map fun p => (c :: p.1, p.2)

/-- Decimal digit run, accumulating into a natural number. -/
def parseDigitsAux (acc : Nat) : List Char → Nat × List Char
  | [] => (acc, [])
  | c :: cs =>
    if c.isDigit then parseDigitsAux (acc * 10 + (c.toNat - 48)) cs
    else (acc, c :: cs)

/-- A nonempty digit run; fails when the first character is not a digit. -/
def parseDigits : List Char → Option (Nat × List Char)
  | [] => none
  | c :: cs =>
    if c.isDigit then some (parseDigitsAux 0 (c :: cs)) else none

mutual

/-- Recursive-descent JSON value parser; `fuel` bounds the recursion depth
and is instantiated generously by `json_loads`. -/
def parseVal (fuel : Nat) (cs : List Char) : Option (Json × List Char) :=
  match fuel with
  | 0 => none
  | fuel + 1 =>
    match skipWs cs with
    | 'n' :: 'u' :: 'l' :: 'l' :: rest => some (.null, rest)
    | 't' :: 'r' :: 'u' :: 'e' :: rest => some (.bool true, rest)
    | 'f' :: 'a' :: 'l' :: 's' :: 'e' :: rest => some (.bool false, rest)
    | '"' :: rest =>
      (parseStringBody rest).map fun p => (.str (String.mk p.1), p.2)
    | '[' :: rest =>
      (match skipWs rest with
       | ']' :: rest2 => some (.arr [], rest2)
       | rest2 =>
         (parseVal fuel rest2).bind fun p =>
           (parseArrRest fuel p.2).map fun q => (.arr (p.1 :: q.1), q.2))
    | '\x7b' :: rest =>
      (match skipWs rest with
       | '\x7d' :: rest2 => some (.obj [], rest2)
       | rest2 =>
         (parseMember fuel rest2).bind fun p =>
           (parseObjRest fuel p.2).map fun q => (.obj (p.1 :: q.1), q.2))
    | '-' :: rest =>
      (parseDigits rest).map fun p => (.num (-(p.1 : Int)), p.2)
    | c :: rest =>
      if c.isDigit then
        (parseDigits (c :: rest)).map fun p => (.num (p.1 : Int), p.2)
      else none
    | [] => none

/-- Elements of an array after the first one: `, v`* then `]`. -/
def parseArrRest (fuel : Nat) (cs : List Char) : Option (List Json × List Char) :=
  match fuel with
  | 0 => none
  | fuel + 1 =>
    match skipWs cs with
    | ',' :: rest =>
      (parseVal fuel rest).bind fun p =>
        (parseArrRest fuel p.2).map fun q => (p.1 :: q.1, q.2)
    | ']' :: rest => some ([], rest)
    | _ => none

/-- One `"key": value` member of an object. -/
def parseMember (fuel : Nat) (cs : List Char) : Option ((String × Json) × List Char) :=
  match fuel with
  | 0 => none
  | fuel + 1 =>
    match skipWs cs with
    | '"' :: rest =>
      (parseStringBody rest).bind fun p =>
        match skipWs p.2 with
        | ':' :: rest2 =>
          (parseVal fuel rest2).map fun q => ((String.mk p.1, q.1), q.2)
        | _ => none
    | _ => none

/-- Members of an object after the first one: `, m`* then the closing brace. -/
def parseObjRest (fuel : Nat) (cs : List Char) :
    Option (List (String × Json) × List Char) :=
  match fuel with
  | 0 => none
  | fuel + 1 =>
    match skipWs cs with
    | ',' :: rest =>
      (parseMember fuel rest).bind fun p =>
        (parseObjRest fuel p.2).map fun q => (p.1 :: q.1, q.2)
    | '\x7d' :: rest => some ([], rest)
    | _ => none

end

/-- Model of `json.loads`: parse a complete JSON document, rejecting trailing garbage. -/
def json_loads (s : String) : Option Json :=
  match parseVal (s.data.length + 1) s.data with
  | some (v, rest) => if (skipWs rest).isEmpty then some v else none
  | none => none

/-- Python `str.strip` whitespace class. -/
def isPyWs (c : Char) : Bool :=
  c == ' ' || c == '\t' || c == '\n' || c == '\r' || c == '\x0b' || c == '\x0c'

/-- Python `str.lstrip` on characters. -/
def trimLeftChars (cs : List Char) : List Char :=
  cs.dropWhile isPyWs

/-- Python `str.rstrip` on characters. -/
def trimRightChars (cs : List Char) : List Char :=
  (cs.reverse.dropWhile isPyWs).reverse

/-- Python `str.strip` on characters. -/
def trimChars (cs : List Char) : List Char :=
  trimRightChars (trimLeftChars cs)

/-- Python `str.strip` on strings. -/
def pyStrip (s : String) : String :=
  String.mk (trimChars s.data)

/-- Does the text begin with a three-character fence marker? -/
def startsWithTicks : List Char → Bool
  | a :: b :: c :: _ => a == tick && b == tick && c == tick
  | _ => false

/-- Split at newline characters; total, always returns a nonempty list. -/
def splitNl : List Char → List (List Char)
  | [] => [[]]
  | c :: cs =>
    if c = '\n' then [] :: splitNl cs
    else
      match splitNl cs with
      | l :: ls => (c :: l) :: ls
      | [] => [[c]]

/-- Python `str.splitlines` (newline-only; no trailing empty line). -/
def pySplitlines (cs : List Char) : List (List Char) :=
  if cs = [] then []
  else if cs.getLast? = some '\n' then (splitNl cs).dropLast
  else splitNl cs

/-- Model of `"\n".join` on character lines. -/
def joinNl : List (List Char) → List Char
  | [] => []
  | [l] => l
  | l :: ls => l ++ '\n' :: joinNl ls

/-- The `raw_for_json` fence handling of `ToolAgent.run_task` (agent.py 174-185):
when the stripped text opens with a fence marker, drop a leading fence line
and a trailing fence line when present, then strip the joined remainder. -/
def fenceStrip (raw : List Char) : List Char :=
  if startsWithTicks raw then
    let ls0 := pySplitlines raw
    let ls1 :=
      match ls0 with
      | l :: rest => if startsWithTicks (trimLeftChars l) then rest else ls0
      | [] => ls0
    let ls2 :=
      match ls1.getLast? with
      | some l => if startsWithTicks (trimChars l) then ls1.dropLast else ls1
      | none => ls1
    trimChars (joinNl ls2)
  else raw

/-- The text actually handed to `json.loads`: the stripped response after
fence handling. -/
def jsonCandidate (text : String) : String :=
  String.mk (fenceStrip (pyStrip text).data)

/-- Python `dict` lookup on the parsed object's fields (later duplicate keys
overwrite earlier ones, as in `json.loads`). -/
def pyGet (fields : List (String × Json)) (k : String) : Option Json :=
  fields.foldl (fun acc kv => if kv.1 = k then some kv.2 else acc) none

/-- Python truthiness (`bool(v)`) of a decoded JSON value. -/
def truthy : Json → Bool
  | .null => false
  | .bool b => b
  | .num n => n != 0
  | .str s => s != ""
  | .arr xs => !xs.isEmpty
  | .obj fs => !fs.isEmpty

mutual

/-- Python `repr` of a decoded JSON value (string quoting simplified to
plain single quotes; no claim exercises quotes inside rendered values). -/
def pyRepr : Json → String
  | .null => "None"
  | .bool true => "True"
  | .bool false => "False"
  | .num n => toString n
  | .str s => "'" ++ s ++ "'"
  | .arr xs => "[" ++ pyReprElems xs ++ "]"
  | .obj fs => "\x7b" ++ pyReprFields fs ++ "\x7d"

/-- Comma-joined `repr`s of list elements. -/
def pyReprElems : List Json → String
  | [] => ""
  | [x] => pyRepr x
  | x :: xs => pyRepr x ++ ", " ++ pyReprElems xs

/-- Comma-joined `'key': repr(value)` renderings of dict items. -/
def pyReprFields : List (String × Json) → String
  | [] => ""
  | [kv] => "'" ++ kv.1 ++ "': " ++ pyRepr kv.2
  | kv :: fs => "'" ++ kv.1 ++ "': " ++ pyRepr kv.2 ++ ", " ++ pyReprFields fs

end

/-- Python `str(v)` of a decoded JSON value. -/
def pyStr : Json → String
  | .str s => s
  | v => pyRepr v

/-- The classified meaning of one assistant turn (the spec's Protocol
Decision).  `rawAnswer` is the spec's `Opaque` decision and carries the
text the loop returns for it: the stripped raw assistant response (the
code's local `raw` variable, agent.py 170). -/
inductive Decision where
  | malformed
  | rawAnswer (text : String)
  | finalAnswer (text : String)
  | toolCall (name : Json) (input : Json)

/-- The `error`-key fallback used when the parsed mapping has no `tool` key
(agent.py 217-219); `raw` is the stripped response returned when the key is
absent too. -/
def errorFallback (fields : List (String × Json)) (raw : String) : Decision :=
  match pyGet fields "error" with
  | some e => .finalAnswer (pyStr e)
  | none => .rawAnswer raw

/-- The requested tool input: `parsed.get("tool_input", {}) or {}`
(agent.py 232) — the value of `tool_input` when present and truthy, the
empty mapping otherwise. -/
def toolInputOf (fields : List (String × Json)) : Json :=
  match pyGet fields "tool_input" with
  | some v => if truthy v then v else .obj []
  | none => .obj []

/-- Classification of one parse outcome, mirroring the branch structure of
`ToolAgent.run_task` (agent.py 188-232): `raw` is the stripped response
text, returned verbatim by every `return raw` branch (the `Opaque` cases). -/
def decideFrom (parsed? : Option Json) (raw : String) : Decision :=
  match parsed? with
  | none => .malformed
  | some parsed =>
    match parsed with
    | .obj fields =>
      match pyGet fields "tool" with
      | none =>
        (match pyGet fields "final_answer" with
         | some fa => if truthy fa then .finalAnswer (pyStr fa) else errorFallback fields raw
         | none => errorFallback fields raw)
      | some .null =>
        (match pyGet fields "final_answer" with
         | some fa => if truthy fa then .finalAnswer (pyStr fa) else .rawAnswer raw
         | none => .rawAnswer raw)
      | some tname => .toolCall tname (toolInputOf fields)
    | _ => .rawAnswer raw

/-- Classification of one assistant response (agent.py 170-232): parse the
fence-handled stripped text and classify, with the stripped response as the
`Opaque` payload. -/
def decideResponse (text : String) : Decision :=
  decideFrom (json_loads (jsonCandidate text)) (pyStrip text)

/-- One conversation message. -/
structure Msg where
  role : String
  content : String

/-- A registered tool: name, description, and a handler whose `Except.error`
branch models a raised Python exception. -/
structure Tool where
  name : String
  description : String
  run : Json → Except String String

/-- The tool catalog (`ToolRegistry`), keyed by tool name. -/
def ToolRegistry := List Tool

/-- Model of `ToolRegistry.get_tool`: dictionary lookup by the decoded `tool` value;
only string names can be registered keys. -/
def get_tool (reg : ToolRegistry) (name : Json) : Option Tool :=
  match name with
  | .str s => reg.find? (fun t => t.name == s)
  | _ => none

/-- The sentinel returned when the step loop exhausts `max_steps`
(agent.py 256). -/
def maxStepsMessage : String :=
  "Maximum tool-calling steps reached without a final answer."

/-- The corrective user message injected after a malformed response
(agent.py 197-206). -/
def invalidJsonReminder : String :=
  "Your previous message was not valid JSON. You MUST respond with JSON ONLY as described in the system prompt. Do not include any extra text."

/-- User message appended when the requested tool is not registered
(agent.py 236). -/
def toolMissingMsg (name : Json) : String :=
  "Tool '" ++ pyStr name ++ "' is not available."

/-- Textual result of executing a tool, with a raised failure caught and
converted to text (agent.py 240-243). -/
def runTool (tool : Tool) (name input : Json) : String :=
  match tool.run input with
  | .ok r => r
  | .error e => "Tool '" ++ pyStr name ++ "' raised an error: " ++ e

/-- User message feeding a tool result back to the model (agent.py 246-254). -/
def toolResultMsg (name input : Json) (result : String) : String :=
  "Result from tool '" ++ pyStr name ++ "' with input " ++ pyRepr input ++ ":\n" ++ result

/-- Result of one `run_task` invocation: the returned string, the number of
Chat Backend calls made, and the final conversation. -/
structure Outcome where
  result : String
  calls : Nat
  msgs : List Msg

/-- Account for one completed Backend round-trip. -/
def bump (o : Outcome) : Outcome :=
  { o with calls := o.calls + 1 }

/-- The `for _ in range(max_steps)` loop body of `ToolAgent.run_task`
(agent.py 153-256), indexed by the remaining step budget.  `badCount` is
`invalid_json_attempts`. -/
def runSteps (backend : List Msg → String) (reg : ToolRegistry) :
    Nat → List Msg → Nat → Outcome
  | 0, msgs, _ => ⟨maxStepsMessage, 0, msgs⟩
  | fuel + 1, msgs, badCount =>
    let text := backend msgs
    let msgs1 := msgs ++ [⟨"assistant", text⟩]
    match decideResponse text with
    | .malformed =>
      if badCount + 1 ≥ 2 then ⟨pyStrip text, 1, msgs1⟩
      else
        bump (runSteps backend reg fuel
          (msgs1 ++ [⟨"user", invalidJsonReminder⟩]) (badCount + 1))
    | .rawAnswer _ => ⟨pyStrip text, 1, msgs1⟩
    | .finalAnswer t => ⟨t, 1, msgs1⟩
    | .toolCall name input =>
      match get_tool reg name with
      | none =>
        bump (runSteps backend reg fuel
          (msgs1 ++ [⟨"user", toolMissingMsg name⟩]) badCount)
      | some tool =>
        bump (runSteps backend reg fuel
          (msgs1 ++ [⟨"user", toolResultMsg name input (runTool tool name input)⟩]) badCount)

/-- The conversation `run_task` seeds before its loop (agent.py 146-149).
`systemPrompt` stands for the composed system prompt (base prompt plus
rendered tool descriptions); no property below depends on its content. -/
def initMsgs (systemPrompt task : String) : List Msg :=
  [⟨"system", systemPrompt⟩, ⟨"user", task⟩]

/-- Model of `ToolAgent.run_task`: seed the conversation and run at most
`max_steps` Backend round-trips (`range` of a non-positive bound is empty). -/
def run_task (backend : List Msg → String) (reg : ToolRegistry)
    (systemPrompt : String) (max_steps : Int) (task : String) : Outcome :=
  runSteps backend reg max_steps.toNat (initMsgs systemPrompt task) 0

/-- A deterministic Chat Backend replaying a fixed script: the reply is
chosen by how many assistant turns the conversation already holds. -/
def scriptBackend (script : List String) (msgs : List Msg) : String :=
  script.getD ((msgs.filter (fun m => m.role == "assistant")).length) ""

/-- Role alternation expected by the loop after the leading system message:
`alt r ms` holds when the roles of `ms` are `r`, `flipRole r`, `r`, … -/
def flipRole (r : String) : String :=
  if r = "user" then "assistant" else "user"

/-- Checks strict role alternation starting at the expected role `r`. -/
def alt (r : String) : List Msg → Bool
  | [] => true
  | m :: rest => (m.role == r) && alt (flipRole r) rest

/-- A registered tool whose handler always succeeds. -/
def echoTool : Tool :=
  ⟨"echo", "echoes a fixed string", fun _ => Except.ok "ok"⟩

/-- A registered tool whose handler always raises. -/
def failingTool : Tool :=
  ⟨"boom", "always raises", fun _ => Except.error "kaput"⟩

/-- A Backend that always requests the registered `echo` tool. -/
def echoBackend : List Msg → String :=
  fun _ => "\x7b\"tool\": \"echo\", \"tool_input\": \x7b\x7d\x7d"

/-- Exhausted budget: the loop body with zero remaining steps returns the
sentinel without calling the Backend. -/
theorem runSteps_zero (backend : List Msg → String) (reg : ToolRegistry)
    (msgs : List Msg) (cnt : Nat) :
    runSteps backend reg 0 msgs cnt = ⟨maxStepsMessage, 0, msgs⟩ := rfl

/-- A response parsing to exactly the two-key final-answer object is
classified as a final answer when the answer text is nonempty. -/
theorem decide_final_answer (text : String) (X : String)
    (hresp : json_loads (jsonCandidate text) =
      some (.obj [("tool", Json.null), ("final_answer", Json.str X)]))
    (hX : X ≠ "") :
    decideResponse text = .finalAnswer X := by
  simp [decideResponse, decideFrom, hresp, pyGet, truthy, pyStr, bne_iff_ne, hX]

/-- The loop makes at most as many Backend calls as it has remaining steps. -/
theorem runSteps_calls_le (backend : List Msg → String) (reg : ToolRegistry) :
    ∀ fuel msgs cnt, (runSteps backend reg fuel msgs cnt).calls ≤ fuel := by
  intro fuel
  induction fuel with
  | zero => intro msgs cnt; exact Nat.le_refl 0
  | succ n ih =>
    intro msgs cnt
    simp only [runSteps]
    split
    · split
      · exact Nat.succ_le_succ (Nat.zero_le n)
      · exact Nat.succ_le_succ (ih _ _)
    · exact Nat.succ_le_succ (Nat.zero_le n)
    · exact Nat.succ_le_succ (Nat.zero_le n)
    · split
      · exact Nat.succ_le_succ (ih _ _)
      · exact Nat.succ_le_succ (ih _ _)

/-- When every response is a tool call, the loop consumes its whole budget
and ends with the sentinel. -/
theorem runSteps_toolcalls_exhaust (backend : List Msg → String) (reg : ToolRegistry)
    (H : ∀ ms, ∃ nm inp, decideResponse (backend ms) = Decision.toolCall nm inp) :
    ∀ fuel msgs cnt, (runSteps backend reg fuel msgs cnt).result = maxStepsMessage ∧
      (runSteps backend reg fuel msgs cnt).calls = fuel := by
  intro fuel
  induction fuel with
  | zero => intro msgs cnt; exact ⟨rfl, rfl⟩
  | succ n ih =>
    intro msgs cnt
    obtain ⟨nm, inp, hd⟩ := H msgs
    simp only [runSteps, hd]
    rcases hreg : get_tool reg nm with _ | tool
    · simp only [bump]
      exact ⟨(ih _ _).1, by rw [(ih _ _).2]⟩
    · simp only [bump]
      exact ⟨(ih _ _).1, by rw [(ih _ _).2]⟩

/-- Appending a message of the expected next role preserves alternation. -/
theorem alt_snoc (xs : List Msg) (r : String) (m : Msg)
    (hr : flipRole (flipRole r) = r) (h : alt r xs = true)
    (hm : m.role = if xs.length % 2 = 0 then r else flipRole r) :
    alt r (xs ++ [m]) = true := by
  induction xs generalizing r with
  | nil =>
    simp only [List.length_nil, Nat.zero_mod, if_pos rfl] at hm
    simp [alt, hm]
  | cons x xs ih =>
    simp only [alt, List.cons_append, Bool.and_eq_true] at h ⊢
    refine ⟨h.1, ih (flipRole r) (congrArg flipRole hr) h.2 ?_⟩
    by_cases hp : xs.length % 2 = 0
    · have hp2 : ¬ (x :: xs).length % 2 = 0 := by simp [List.length_cons]; omega
      rw [if_neg hp2] at hm
      rw [if_pos hp]
      exact hm
    · have hp2 : (x :: xs).length % 2 = 0 := by simp [List.length_cons]; omega
      rw [if_pos hp2] at hm
      rw [if_neg hp, hr]
      exact hm

/-- Loop invariant: starting from a conversation of one system message
followed by an odd-length strictly alternating user/assistant block that
expects an assistant reply next, the loop only ever appends messages, and
the alternation is preserved. -/
theorem runSteps_conv (backend : List Msg → String) (reg : ToolRegistry) :
    ∀ (fuel : Nat) (rest : List Msg) (sp : String) (cnt : Nat),
      alt "user" rest = true → rest.length % 2 = 1 →
      ∃ tail, (runSteps backend reg fuel (⟨"system", sp⟩ :: rest) cnt).msgs
          = ⟨"system", sp⟩ :: (rest ++ tail) ∧ alt "user" (rest ++ tail) = true := by
  intro fuel
  induction fuel with
  | zero =>
    intro rest sp cnt h hp
    exact ⟨[], by simp [runSteps_zero], by simpa using h⟩
  | succ n ih =>
    intro rest sp cnt h hp
    have hfr : flipRole (flipRole "user") = "user" := rfl
    have ha1 : alt "user" (rest ++ [⟨"assistant", backend (⟨"system", sp⟩ :: rest)⟩]) = true := by
      refine alt_snoc rest "user" _ hfr h ?_
      rw [if_neg (by omega)]
      rfl
    have hp1 : (rest ++ [(⟨"assistant", backend (⟨"system", sp⟩ :: rest)⟩ : Msg)]).length % 2 = 0 := by
      simp [List.length_append]
      omega
    simp only [runSteps]
    split
    · split
      · exact ⟨[⟨"assistant", backend (⟨"system", sp⟩ :: rest)⟩], by simp, ha1⟩
      · have ha2 : alt "user" ((rest ++ [⟨"assistant", backend (⟨"system", sp⟩ :: rest)⟩])
            ++ [⟨"user", invalidJsonReminder⟩]) = true := by
          refine alt_snoc _ "user" _ hfr ha1 ?_
          rw [if_pos hp1]
        have hp2 : ((rest ++ [(⟨"assistant", backend (⟨"system", sp⟩ :: rest)⟩ : Msg)])
            ++ [(⟨"user", invalidJsonReminder⟩ : Msg)]).length % 2 = 1 := by
          simp [List.length_append]
          omega
        obtain ⟨tail, hmsgs, halt⟩ := ih ((rest ++ [⟨"assistant", backend (⟨"system", sp⟩ :: rest)⟩])
            ++ [⟨"user", invalidJsonReminder⟩]) sp (cnt + 1) ha2 hp2
        refine ⟨[⟨"assistant", backend (⟨"system", sp⟩ :: rest)⟩] ++ [⟨"user", invalidJsonReminder⟩] ++ tail, ?_, ?_⟩
        · simpa [bump, List.cons_append, List.append_assoc] using hmsgs
        · simpa [List.append_assoc] using halt
    · exact ⟨[⟨"assistant", backend (⟨"system", sp⟩ :: rest)⟩], by simp, ha1⟩
    · exact ⟨[⟨"assistant", backend (⟨"system", sp⟩ :: rest)⟩], by simp, ha1⟩
    · rename_i nm inp heq
      split
      · have ha2 : alt "user" ((rest ++ [⟨"assistant", backend (⟨"system", sp⟩ :: rest)⟩])
            ++ [⟨"user", toolMissingMsg nm⟩]) = true := by
          refine alt_snoc _ "user" _ hfr ha1 ?_
          rw [if_pos hp1]
        have hp2 : ((rest ++ [(⟨"assistant", backend (⟨"system", sp⟩ :: rest)⟩ : Msg)])
            ++ [(⟨"user", toolMissingMsg nm⟩ : Msg)]).length % 2 = 1 := by
          simp [List.length_append]
          omega
        obtain ⟨tail, hmsgs, halt⟩ := ih ((rest ++ [⟨"assistant", backend (⟨"system", sp⟩ :: rest)⟩])
            ++ [⟨"user", toolMissingMsg nm⟩]) sp cnt ha2 hp2
        refine ⟨[⟨"assistant", backend (⟨"system", sp⟩ :: rest)⟩] ++ [⟨"user", toolMissingMsg nm⟩] ++ tail, ?_, ?_⟩
        · simpa [bump, List.cons_append, List.append_assoc] using hmsgs
        · simpa [List.append_assoc] using halt
      · rename_i tool hreg
        have ha2 : alt "user" ((rest ++ [⟨"assistant", backend (⟨"system", sp⟩ :: rest)⟩])
            ++ [⟨"user", toolResultMsg nm inp (runTool tool nm inp)⟩]) = true := by
          refine alt_snoc _ "user" _ hfr ha1 ?_
          rw [if_pos hp1]
        have hp2 : ((rest ++ [(⟨"assistant", backend (⟨"system", sp⟩ :: rest)⟩ : Msg)])
            ++ [(⟨"user", toolResultMsg nm inp (runTool tool nm inp)⟩ : Msg)]).length % 2 = 1 := by
          simp [List.length_append]
          omega
        obtain ⟨tail, hmsgs, halt⟩ := ih ((rest ++ [⟨"assistant", backend (⟨"system", sp⟩ :: rest)⟩])
            ++ [⟨"user", toolResultMsg nm inp (runTool tool nm inp)⟩]) sp cnt ha2 hp2
        refine ⟨[⟨"assistant", backend (⟨"system", sp⟩ :: rest)⟩] ++ [⟨"user", toolResultMsg nm inp (runTool tool nm inp)⟩] ++ tail, ?_, ?_⟩
        · simpa [bump, List.cons_append, List.append_assoc] using hmsgs
        · simpa [List.append_assoc] using halt

/-- Claim C1, counterexample: a run whose three responses decide as
Malformed, ToolCall (unknown tool), Malformed — no two consecutive
malformed decisions — still terminates through the malformed-threshold
path on the third call (with budget 4 left unexhausted), returning the
third raw text: the counter was not reset by the well-formed tool call. -/
theorem c1_reset_counterexample :
    decideResponse "oops" = Decision.malformed ∧
    decideResponse "\x7b\"tool\": \"nonexistent_tool\"\x7d"
      = Decision.toolCall (Json.str "nonexistent_tool") (Json.obj []) ∧
    decideResponse "oops again" = Decision.malformed ∧
    (run_task (scriptBackend ["oops", "\x7b\"tool\": \"nonexistent_tool\"\x7d", "oops again"])
      [] "sys" 4 "task").result = "oops again" ∧
    (run_task (scriptBackend ["oops", "\x7b\"tool\": \"nonexistent_tool\"\x7d", "oops again"])
      [] "sys" 4 "task").calls = 3 :=
  ⟨rfl, rfl, rfl, rfl, rfl⟩

/-- Claim C1, amended: the invalid-response counter accumulates over the
whole invocation and is never reset; once at least one malformed response
has been counted, the next malformed response terminates the loop at once
— regardless of any intervening well-formed responses — returning that
response's stripped text after its own round-trip. -/
theorem c1_cumulative_threshold (backend : List Msg → String) (reg : ToolRegistry)
    (fuel : Nat) (msgs : List Msg) (cnt : Nat)
    (hcnt : 1 ≤ cnt) (h : decideResponse (backend msgs) = .malformed) :
    runSteps backend reg (fuel + 1) msgs cnt =
      ⟨pyStrip (backend msgs), 1, msgs ++ [⟨"assistant", backend msgs⟩]⟩ := by
  have h2 : cnt + 1 ≥ 2 := by omega
  simp only [runSteps, h, if_pos h2]

/-- Claim C1, witness: concrete instance of the amended theorem. -/
theorem c1_cumulative_threshold_witness :
    1 ≤ 1 ∧
    decideResponse (scriptBackend ["still not json"] (initMsgs "sys" "task"))
      = Decision.malformed ∧
    runSteps (scriptBackend ["still not json"]) [] (2 + 1) (initMsgs "sys" "task") 1 =
      ⟨pyStrip (scriptBackend ["still not json"] (initMsgs "sys" "task")), 1,
       initMsgs "sys" "task" ++
         [⟨"assistant", scriptBackend ["still not json"] (initMsgs "sys" "task")⟩]⟩ :=
  ⟨Nat.le_refl 1, rfl,
   c1_cumulative_threshold (scriptBackend ["still not json"]) [] 2
     (initMsgs "sys" "task") 1 (Nat.le_refl 1) rfl⟩

/-- Claim C2, counterexample: with budget 2 and a Backend that always
requests a registered tool, the run stops after the 2nd call with the
loop's actual sentinel text, which is not the string quoted in the claim. -/
theorem c2_sentinel_counterexample :
    (run_task echoBackend [echoTool] "sys" 2 "task").result
      = "Maximum tool-calling steps reached without a final answer." ∧
    (run_task echoBackend [echoTool] "sys" 2 "task").result
      ≠ "maximum steps reached without a final answer" ∧
    (run_task echoBackend [echoTool] "sys" 2 "task").calls = 2 :=
  ⟨rfl, by decide, rfl⟩

/-- Claim C2, amended: for every step budget, `run_task` makes at most that
many Backend calls; and when every response decides as a tool call (so the
loop never otherwise terminates), it consumes the whole budget and returns
the fixed sentinel "Maximum tool-calling steps reached without a final
answer.". -/
theorem c2_budget_bound (N : Int) (backend : List Msg → String) (reg : ToolRegistry)
    (sp task : String) :
    (run_task backend reg sp N task).calls ≤ N.toNat ∧
    ((∀ ms, ∃ nm inp, decideResponse (backend ms) = Decision.toolCall nm inp) →
      (run_task backend reg sp N task).result = maxStepsMessage ∧
      (run_task backend reg sp N task).calls = N.toNat) := by
  refine ⟨runSteps_calls_le backend reg N.toNat _ 0, fun H => ?_⟩
  exact ⟨(runSteps_toolcalls_exhaust backend reg H N.toNat _ 0).1,
         (runSteps_toolcalls_exhaust backend reg H N.toNat _ 0).2⟩

/-- Claim C2, witness: the budget-2 always-tool-call scenario. -/
theorem c2_budget_bound_witness :
    (run_task echoBackend [echoTool] "sys" 2 "task").calls ≤ (2 : Int).toNat ∧
    ((run_task echoBackend [echoTool] "sys" 2 "task").result = maxStepsMessage ∧
     (run_task echoBackend [echoTool] "sys" 2 "task").calls = (2 : Int).toNat) :=
  ⟨(c2_budget_bound 2 echoBackend [echoTool] "sys" "task").1,
   (c2_budget_bound 2 echoBackend [echoTool] "sys" "task").2
     (fun _ => ⟨Json.str "echo", Json.obj [], rfl⟩)⟩

/-- Claim C3, counterexample: two consecutive unparseable responses do end
the run after the second call, but the returned text is the second
response stripped of surrounding whitespace, not the raw text verbatim. -/
theorem c3_verbatim_counterexample :
    decideResponse "nope" = Decision.malformed ∧
    decideResponse " nope2\n" = Decision.malformed ∧
    (run_task (scriptBackend ["nope", " nope2\n"]) [] "sys" 4 "task").calls = 2 ∧
    (run_task (scriptBackend ["nope", " nope2\n"]) [] "sys" 4 "task").result = "nope2" ∧
    ("nope2" : String) ≠ " nope2\n" :=
  ⟨rfl, rfl, rfl, rfl, by decide⟩

/-- Claim C3, amended: if the first two Backend responses are both
malformed, the run terminates immediately after the second round-trip (two
Backend calls, never a third) and returns the second response with
leading/trailing whitespace stripped — verbatim exactly when the response
carries no surrounding whitespace. -/
theorem c3_two_malformed (backend : List Msg → String) (reg : ToolRegistry)
    (sp task : String) (N : Int) (hN : 2 ≤ N)
    (h1 : decideResponse (backend (initMsgs sp task)) = .malformed)
    (h2 : decideResponse (backend (initMsgs sp task ++
      [⟨"assistant", backend (initMsgs sp task)⟩, ⟨"user", invalidJsonReminder⟩]))
        = .malformed) :
    (run_task backend reg sp N task).calls = 2 ∧
    (run_task backend reg sp N task).result =
      pyStrip (backend (initMsgs sp task ++
        [⟨"assistant", backend (initMsgs sp task)⟩, ⟨"user", invalidJsonReminder⟩])) := by
  unfold run_task
  rw [show N.toNat = (N.toNat - 2) + 1 + 1 from by omega]
  simp only [runSteps, h1]
  rw [if_neg (by omega)]
  simp only [List.append_assoc, List.singleton_append, List.cons_append, List.nil_append]
  simp only [h2]
  rw [if_pos (by omega)]
  simp only [bump]
  simp

/-- Claim C3, witness: two whitespace-free malformed responses. -/
theorem c3_two_malformed_witness :
    (2 : Int) ≤ 4 ∧
    (run_task (scriptBackend ["nope", "nope2"]) [] "sys" 4 "task").calls = 2 ∧
    (run_task (scriptBackend ["nope", "nope2"]) [] "sys" 4 "task").result =
      pyStrip (scriptBackend ["nope", "nope2"] (initMsgs "sys" "task" ++
        [⟨"assistant", scriptBackend ["nope", "nope2"] (initMsgs "sys" "task")⟩,
         ⟨"user", invalidJsonReminder⟩])) :=
  ⟨by decide,
   (c3_two_malformed (scriptBackend ["nope", "nope2"]) [] "sys" "task" 4 (by decide) rfl rfl).1,
   (c3_two_malformed (scriptBackend ["nope", "nope2"]) [] "sys" "task" 4 (by decide) rfl rfl).2⟩

/-- Claim C4: for every Backend, registry, prompt, task and budget, the
final conversation of `run_task` is the seeded system message followed by
the seeded user task message followed only by appended messages
(append-only: the seed is a prefix), and everything after the system
message strictly alternates user/assistant starting with user.  Since the
conversation grows only by appends, every intermediate conversation is a
prefix of this one, and a prefix of a strictly alternating sequence is
strictly alternating, so the invariant holds throughout the run. -/
theorem c4_conversation_shape (backend : List Msg → String) (reg : ToolRegistry)
    (sp task : String) (N : Int) :
    ∃ tail, (run_task backend reg sp N task).msgs
        = ⟨"system", sp⟩ :: ⟨"user", task⟩ :: tail ∧
      alt "user" (⟨"user", task⟩ :: tail) = true ∧
      (run_task backend reg sp N task).msgs = initMsgs sp task ++ tail := by
  obtain ⟨tail, hmsgs, halt⟩ :=
    runSteps_conv backend reg N.toNat [⟨"user", task⟩] sp 0 (by rfl) (by rfl)
  refine ⟨tail, ?_, ?_, ?_⟩
  · simpa [run_task, initMsgs] using hmsgs
  · simpa using halt
  · simpa [run_task, initMsgs] using hmsgs

/-- Claim C6: whenever a response parses to a JSON mapping with no `tool`
key, the loop terminates on that round-trip (one Backend call, the
assistant message appended) and returns, in precedence order: the
stringified value of a present truthy (non-empty) `final_answer` key;
otherwise the stringified value of a present `error` key (surfaced as the
successful answer); otherwise the stripped raw assistant text. -/
theorem c6_no_tool_key_precedence (backend : List Msg → String) (reg : ToolRegistry)
    (fuel : Nat) (msgs : List Msg) (cnt : Nat) (fields : List (String × Json))
    (h : json_loads (jsonCandidate (backend msgs)) = some (.obj fields))
    (hNoTool : pyGet fields "tool" = none) :
    runSteps backend reg (fuel + 1) msgs cnt =
      ⟨(match pyGet fields "final_answer" with
        | some fa =>
          if truthy fa then pyStr fa
          else
            match pyGet fields "error" with
            | some e => pyStr e
            | none => pyStrip (backend msgs)
        | none =>
          match pyGet fields "error" with
          | some e => pyStr e
          | none => pyStrip (backend msgs)),
       1, msgs ++ [⟨"assistant", backend msgs⟩]⟩ := by
  rcases hfa : pyGet fields "final_answer" with _ | fa
  · rcases herr : pyGet fields "error" with _ | e
    · have hdec : decideResponse (backend msgs)
          = Decision.rawAnswer (pyStrip (backend msgs)) := by
        simp only [decideResponse, decideFrom, h, hNoTool, hfa, errorFallback, herr]
      simp only [runSteps, hdec, hfa, herr]
    · have hdec : decideResponse (backend msgs) = Decision.finalAnswer (pyStr e) := by
        simp only [decideResponse, decideFrom, h, hNoTool, hfa, errorFallback, herr]
      simp only [runSteps, hdec, hfa, herr]
  · cases ht : truthy fa
    · rcases herr : pyGet fields "error" with _ | e
      · have hdec : decideResponse (backend msgs)
            = Decision.rawAnswer (pyStrip (backend msgs)) := by
          simp only [decideResponse, decideFrom, h, hNoTool, hfa, ht, errorFallback, herr]
          simp
        simp only [runSteps, hdec, hfa, herr, ht]
        simp
      · have hdec : decideResponse (backend msgs) = Decision.finalAnswer (pyStr e) := by
          simp only [decideResponse, decideFrom, h, hNoTool, hfa, ht, errorFallback, herr]
          simp
        simp only [runSteps, hdec, hfa, herr, ht]
        simp
    · have hdec : decideResponse (backend msgs) = Decision.finalAnswer (pyStr fa) := by
        simp only [decideResponse, decideFrom, h, hNoTool, hfa, ht]
        simp
      simp only [runSteps, hdec, hfa, ht]
      simp

/-- Claim C6, witness: a mapping carrying only an `error` key becomes the
returned answer. -/
theorem c6_no_tool_key_precedence_witness :
    json_loads (jsonCandidate (scriptBackend ["\x7b\"error\": \"boom\"\x7d"] (initMsgs "sys" "task")))
      = some (.obj [("error", Json.str "boom")]) ∧
    pyGet [("error", Json.str "boom")] "tool" = none ∧
    runSteps (scriptBackend ["\x7b\"error\": \"boom\"\x7d"]) [] (0 + 1) (initMsgs "sys" "task") 0 =
      ⟨(match pyGet [("error", Json.str "boom")] "final_answer" with
        | some fa =>
          if truthy fa then pyStr fa
          else
            match pyGet [("error", Json.str "boom")] "error" with
            | some e => pyStr e
            | none => pyStrip (scriptBackend ["\x7b\"error\": \"boom\"\x7d"] (initMsgs "sys" "task"))
        | none =>
          match pyGet [("error", Json.str "boom")] "error" with
          | some e => pyStr e
          | none => pyStrip (scriptBackend ["\x7b\"error\": \"boom\"\x7d"] (initMsgs "sys" "task"))),
       1, initMsgs "sys" "task" ++
         [⟨"assistant", scriptBackend ["\x7b\"error\": \"boom\"\x7d"] (initMsgs "sys" "task")⟩]⟩ :=
  ⟨rfl, rfl,
   c6_no_tool_key_precedence (scriptBackend ["\x7b\"error\": \"boom\"\x7d"]) [] 0
     (initMsgs "sys" "task") 0 [("error", Json.str "boom")] rfl rfl⟩

/-- Claim C7: when a response decides as a call of a registered tool and
the tool's handler fails (modelled by `Except.error`), the loop step is
exactly: append the assistant message, append a user message built from
the tool name, the supplied input, and the caught-error text, and continue
into the next iteration with one budget unit consumed and the malformed
counter unchanged — the failure never escapes `run_task` (the embedded
loop is a total function, and this equation shows the failing step reduces
to a normal continuation). -/
theorem c7_tool_failure_contained (backend : List Msg → String) (reg : ToolRegistry)
    (fuel : Nat) (msgs : List Msg) (cnt : Nat) (nm inp : Json) (tool : Tool)
    (e : String)
    (h : decideResponse (backend msgs) = .toolCall nm inp)
    (hreg : get_tool reg nm = some tool)
    (herr : tool.run inp = .error e) :
    runSteps backend reg (fuel + 1) msgs cnt =
      bump (runSteps backend reg fuel
        (msgs ++ [⟨"assistant", backend msgs⟩,
                  ⟨"user", toolResultMsg nm inp
                    ("Tool '" ++ pyStr nm ++ "' raised an error: " ++ e)⟩]) cnt) := by
  simp only [runSteps, h, hreg, runTool, herr]
  rw [List.append_assoc]
  rfl

/-- Claim C7, witness: a registered tool whose handler always raises. -/
theorem c7_tool_failure_contained_witness :
    decideResponse (scriptBackend ["\x7b\"tool\": \"boom\"\x7d"] (initMsgs "sys" "task"))
      = Decision.toolCall (Json.str "boom") (Json.obj []) ∧
    get_tool [failingTool] (Json.str "boom") = some failingTool ∧
    failingTool.run (Json.obj []) = Except.error "kaput" ∧
    runSteps (scriptBackend ["\x7b\"tool\": \"boom\"\x7d"]) [failingTool] (0 + 1)
        (initMsgs "sys" "task") 0 =
      bump (runSteps (scriptBackend ["\x7b\"tool\": \"boom\"\x7d"]) [failingTool] 0
        (initMsgs "sys" "task" ++
          [⟨"assistant", scriptBackend ["\x7b\"tool\": \"boom\"\x7d"] (initMsgs "sys" "task")⟩,
           ⟨"user", toolResultMsg (Json.str "boom") (Json.obj [])
             ("Tool '" ++ pyStr (Json.str "boom") ++ "' raised an error: " ++ "kaput")⟩]) 0) :=
  ⟨rfl, rfl, rfl,
   c7_tool_failure_contained (scriptBackend ["\x7b\"tool\": \"boom\"\x7d"]) [failingTool] 0
     (initMsgs "sys" "task") 0 (Json.str "boom") (Json.obj []) failingTool "kaput" rfl rfl rfl⟩

/-- Claim C8: a tool call naming an unregistered tool does not terminate
the loop: the step reduces to a continuation whose conversation — the one
sent on the next Backend call — additionally contains a user message
stating the tool is unavailable, with exactly one unit of step budget
consumed (`fuel + 1` to `fuel`) and the malformed counter `cnt` passed
through unchanged. -/
theorem c8_unknown_tool_continues (backend : List Msg → String) (reg : ToolRegistry)
    (fuel : Nat) (msgs : List Msg) (cnt : Nat) (nm : String) (inp : Json)
    (h : decideResponse (backend msgs) = .toolCall (.str nm) inp)
    (hreg : get_tool reg (.str nm) = none) :
    runSteps backend reg (fuel + 1) msgs cnt =
      bump (runSteps backend reg fuel
        (msgs ++ [⟨"assistant", backend msgs⟩,
                  ⟨"user", "Tool '" ++ nm ++ "' is not available."⟩]) cnt) ∧
    (⟨"user", "Tool '" ++ nm ++ "' is not available."⟩ : Msg) ∈
      msgs ++ [⟨"assistant", backend msgs⟩,
               ⟨"user", "Tool '" ++ nm ++ "' is not available."⟩] := by
  constructor
  · simp only [runSteps, h, hreg]
    rw [List.append_assoc]
    rfl
  · simp

/-- Claim C8, witness: the spec's unregistered name scenario. -/
theorem c8_unknown_tool_continues_witness :
    decideResponse (scriptBackend ["\x7b\"tool\": \"nonexistent_tool\"\x7d"] (initMsgs "sys" "task"))
      = Decision.toolCall (Json.str "nonexistent_tool") (Json.obj []) ∧
    get_tool [] (Json.str "nonexistent_tool") = none ∧
    (runSteps (scriptBackend ["\x7b\"tool\": \"nonexistent_tool\"\x7d"]) [] (0 + 1)
        (initMsgs "sys" "task") 0 =
      bump (runSteps (scriptBackend ["\x7b\"tool\": \"nonexistent_tool\"\x7d"]) [] 0
        (initMsgs "sys" "task" ++
          [⟨"assistant", scriptBackend ["\x7b\"tool\": \"nonexistent_tool\"\x7d"] (initMsgs "sys" "task")⟩,
           ⟨"user", "Tool '" ++ "nonexistent_tool" ++ "' is not available."⟩]) 0) ∧
    (⟨"user", "Tool '" ++ "nonexistent_tool" ++ "' is not available."⟩ : Msg) ∈
      initMsgs "sys" "task" ++
        [⟨"assistant", scriptBackend ["\x7b\"tool\": \"nonexistent_tool\"\x7d"] (initMsgs "sys" "task")⟩,
         ⟨"user", "Tool '" ++ "nonexistent_tool" ++ "' is not available."⟩]) :=
  ⟨rfl, rfl,
   c8_unknown_tool_continues (scriptBackend ["\x7b\"tool\": \"nonexistent_tool\"\x7d"]) [] 0
     (initMsgs "sys" "task") 0 "nonexistent_tool" (Json.obj []) rfl rfl⟩

/-- Claim C9: if the first Backend response parses to exactly the mapping
with `tool` null and a nonempty string `final_answer` X, and the budget is
positive, `run_task` terminates after exactly one Backend call and
returns X. -/
theorem c9_final_answer_one_call (backend : List Msg → String) (reg : ToolRegistry)
    (sp task : String) (N : Int) (X : String)
    (hN : 0 < N)
    (hresp : json_loads (jsonCandidate (backend (initMsgs sp task))) =
      some (.obj [("tool", Json.null), ("final_answer", Json.str X)]))
    (hX : X ≠ "") :
    (run_task backend reg sp N task).calls = 1 ∧
    (run_task backend reg sp N task).result = X := by
  have hdec := decide_final_answer (backend (initMsgs sp task)) X hresp hX
  unfold run_task
  rw [show N.toNat = (N.toNat - 1) + 1 from by omega]
  simp only [runSteps, hdec]
  simp

/-- Claim C9, witness: a well-formed final answer on the first call. -/
theorem c9_final_answer_one_call_witness :
    (0 : Int) < 4 ∧
    json_loads (jsonCandidate (scriptBackend ["\x7b\"tool\": null, \"final_answer\": \"42\"\x7d"]
        (initMsgs "sys" "task")))
      = some (.obj [("tool", Json.null), ("final_answer", Json.str "42")]) ∧
    ("42" : String) ≠ "" ∧
    ((run_task (scriptBackend ["\x7b\"tool\": null, \"final_answer\": \"42\"\x7d"]) [] "sys" 4 "task").calls = 1 ∧
     (run_task (scriptBackend ["\x7b\"tool\": null, \"final_answer\": \"42\"\x7d"]) [] "sys" 4 "task").result = "42") :=
  ⟨by decide, rfl, by decide,
   c9_final_answer_one_call (scriptBackend ["\x7b\"tool\": null, \"final_answer\": \"42\"\x7d"])
     [] "sys" "task" 4 "42" (by decide) rfl (by decide)⟩

/-- Claim C10: with a non-positive `max_steps`, `run_task` makes zero
Backend calls and immediately returns the budget-exhausted sentinel, the
conversation still being just the seeded system and task messages. -/
theorem c10_nonpositive_budget (backend : List Msg → String) (reg : ToolRegistry)
    (sp task : String) (N : Int) (hN : N ≤ 0) :
    run_task backend reg sp N task = ⟨maxStepsMessage, 0, initMsgs sp task⟩ := by
  unfold run_task
  rw [Int.toNat_of_nonpos hN, runSteps_zero]

/-- Claim C10, witness: a negative budget. -/
theorem c10_nonpositive_budget_witness :
    (-3 : Int) ≤ 0 ∧
    run_task (scriptBackend []) [] "sys" (-3) "task"
      = ⟨maxStepsMessage, 0, initMsgs "sys" "task"⟩ :=
  ⟨by decide, c10_nonpositive_budget (scriptBackend []) [] "sys" "task" (-3) (by decide)⟩
